import Mathlib

/-!
Shallow embedding of the antigravity-provider credential broker
(src/src-tauri/src: auth/oauth.rs, token_refresh.rs, api/code_assist.rs,
credentials.rs, main.rs).

External collaborators (reqwest HTTP calls, serde_json parsing of raw
text, chrono timestamp formatting, the rand byte source, the sha2 and
base64 library transforms, uuid generation) are modelled as environment
parameters: each HTTP call site receives the outcome of that call as a
value, and library functions arrive as function-valued fields of an
environment record.  Everything written in the repository itself is
translated directly.  Some operations additionally return
instrumentation (call counts, sleep traces, a refresh-was-called flag)
so that claims about "number of HTTP calls" and "backoff delays" are
statable; the instrumentation mirrors the control flow and adds no
behaviour.
-/

/-- Model of serde_json::Value.  Numbers are modelled as integers: every
number the claims touch (expiry timestamps, ids) is integral, and the
string/bool accessors the code uses return none on any number. -/
inductive Json where
  | null : Json
  | bool (b : Bool) : Json
  | num (n : Int) : Json
  | str (s : String) : Json
  | arr (xs : List Json) : Json
  | obj (kvs : List (String × Json)) : Json
deriving Repr

/-- serde_json::Value::get on an object: first binding for the key, none
otherwise (and none on every non-object). -/
def Json.get : Json → String → Option Json
  | Json.obj kvs, k => (kvs.find? (fun kv => kv.1 = k)).map (fun kv => kv.2)
  | _, _ => none

/-- serde_json Index (value["k"]): like get but yields Null when absent
or when the value is not an object. -/
def Json.index (v : Json) (k : String) : Json :=
  (v.get k).getD Json.null

/-- Value::as_str. -/
def Json.asStr : Json → Option String
  | Json.str s => some s
  | _ => none

/-- Value::as_bool. -/
def Json.asBool : Json → Option Bool
  | Json.bool b => some b
  | _ => none

/-- Value::as_array. -/
def Json.asArray : Json → Option (List Json)
  | Json.arr xs => some xs
  | _ => none

/-- Json for an optional string field (None serializes to null). -/
def Json.ofOptStr : Option String → Json
  | some s => Json.str s
  | none => Json.null

/-- Json for an optional integer field (None serializes to null). -/
def Json.ofOptInt : Option Int → Json
  | some n => Json.num n
  | none => Json.null

/- ---------------------------------------------------------------
   credentials.rs
   --------------------------------------------------------------- -/

/-- credentials.rs AuthType. -/
inductive AuthType where
  | OAuth : AuthType
deriving Repr, DecidableEq

/-- credentials.rs AntigravityCredentials (fields in source order). -/
structure AntigravityCredentials where
  id : String
  name : Option String := none
  auth_type : AuthType := AuthType.OAuth
  access_token : Option String := none
  refresh_token : Option String := none
  expiry_date : Option Int := none
  expire : Option String := none
  scope : Option String := none
  email : Option String := none
  project_id : Option String := none
  temp_project_id : Option String := none
  disabled : Bool := false
  is_healthy : Bool := true
  last_refresh : Option String := none
  last_error : Option String := none
  rate_limit_status : Option String := none
  rate_limited_at : Option String := none
  created_at : Option String := none
  updated_at : Option String := none
deriving Repr

/- ---------------------------------------------------------------
   auth/oauth.rs
   --------------------------------------------------------------- -/

def OAUTH_CLIENT_ID : String :=
  "681255809395-oo8ft2oprdrnp9e3aqf6av3hmdib135j.apps.googleusercontent.com"

def OAUTH_CLIENT_SECRET : String := "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"

def OAUTH_SCOPES : List String := ["https://www.googleapis.com/auth/cloud-platform"]

def OAUTH_REDIRECT_URI : String := "https://codeassist.google.com/authcode"

def OAUTH_TOKEN_URL : String := "https://oauth2.googleapis.com/token"

def OAUTH_AUTH_URL : String := "https://accounts.google.com/o/oauth2/v2/auth"

def OAUTH_USERINFO_URL : String := "https://www.googleapis.com/oauth2/v2/userinfo"

/-- oauth.rs PkceVerifier. -/
structure PkceVerifier where
  code_verifier : String
  code_challenge : String
deriving Repr

/-- The 66-character unreserved alphabet indexed by generate_pkce. -/
def pkceChars : List Char :=
  "ABCDEFGHIJKLMNOPQRSTUVWXYZabcdefghijklmnopqrstuvwxyz0123456789-._~".toList

/-- oauth.rs generate_pkce.  randByte models successive draws of
rand::random::<u8>(); sha256 and b64UrlNoPad model the sha2 digest and
the base64 URL_SAFE_NO_PAD engine applied to the verifier's bytes. -/
def generate_pkce (randByte : Nat → Fin 256) (sha256 : String → List Nat)
    (b64UrlNoPad : List Nat → String) : PkceVerifier :=
  let code_verifier : String :=
    String.mk ((List.range 64).map (fun i => pkceChars.getD ((randByte i).val % 66) ' '))
  let code_challenge := b64UrlNoPad (sha256 code_verifier)
  { code_verifier := code_verifier, code_challenge := code_challenge }

/-- oauth.rs generate_auth_url.  urlencode models urlencoding::encode. -/
def generate_auth_url (urlencode : String → String) (state : String)
    (code_challenge : String) : String :=
  let scopes := String.intercalate " " OAUTH_SCOPES
  let params : List (String × String) :=
    [("access_type", "offline"),
     ("client_id", OAUTH_CLIENT_ID),
     ("code_challenge", code_challenge),
     ("code_challenge_method", "S256"),
     ("prompt", "select_account"),
     ("redirect_uri", OAUTH_REDIRECT_URI),
     ("response_type", "code"),
     ("scope", scopes),
     ("state", state)]
  let query :=
    String.intercalate "&" (params.map (fun kv => kv.1 ++ "=" ++ urlencode kv.2))
  OAUTH_AUTH_URL ++ "?" ++ query

/-- oauth.rs TokenResponse, as deserialized by serde (all fields
beyond access_token default when absent). -/
structure TokenResponse where
  access_token : String
  refresh_token : Option String := none
  token_type : String := ""
  expires_in : Option Int := none
  scope : Option String := none
  expiry_date : Option Int := none
deriving Repr

/-- Outcome of one POST to the token endpoint, as classified by the
reqwest/serde collaborators: transport error from send() or builder,
non-success HTTP status (carrying its Display text and body), body that
failed to parse as TokenResponse, or a parsed body. -/
inductive TokenHttpOutcome where
  | netErr (e : String) : TokenHttpOutcome
  | httpBad (status : String) (body : String) : TokenHttpOutcome
  | parseErr (e : String) : TokenHttpOutcome
  | okBody (t : TokenResponse) : TokenHttpOutcome
deriving Repr

/-- oauth.rs exchange_code_for_tokens, as a function of the HTTP
outcome and the current time (Utc::now().timestamp_millis()). -/
def exchange_code_for_tokens (now : Int) (outcome : TokenHttpOutcome) :
    Except String TokenResponse :=
  match outcome with
  | TokenHttpOutcome.netErr e => Except.error e
  | TokenHttpOutcome.httpBad status body =>
      Except.error ("Token 交换失败: " ++ status ++ " - " ++ body)
  | TokenHttpOutcome.parseErr e => Except.error e
  | TokenHttpOutcome.okBody t =>
      let t :=
        if t.expiry_date = none then
          match t.expires_in with
          | some ei => { t with expiry_date := some (now + ei * 1000) }
          | none => t
        else t
      Except.ok t

/-- oauth.rs refresh_access_token, as a function of the HTTP outcome,
the current time and the refresh token posted. -/
def refresh_access_token (now : Int) (outcome : TokenHttpOutcome)
    (refresh_token : String) : Except String TokenResponse :=
  match outcome with
  | TokenHttpOutcome.netErr e => Except.error e
  | TokenHttpOutcome.httpBad status body =>
      Except.error ("Token 刷新失败: " ++ status ++ " - " ++ body)
  | TokenHttpOutcome.parseErr e => Except.error e
  | TokenHttpOutcome.okBody t =>
      let t :=
        if t.refresh_token = none then { t with refresh_token := some refresh_token }
        else t
      let t :=
        if t.expiry_date = none then
          match t.expires_in with
          | some ei => { t with expiry_date := some (now + ei * 1000) }
          | none => { t with expiry_date := some (now + 3600000) }
        else t
      Except.ok t

/-- oauth.rs UserInfo. -/
structure UserInfo where
  id : Option String := none
  email : Option String := none
  name : Option String := none
  picture : Option String := none
deriving Repr

/-- Outcome of the GET to the userinfo endpoint. -/
inductive UserInfoOutcome where
  | netErr (e : String) : UserInfoOutcome
  | httpBad (status : String) : UserInfoOutcome
  | parseErr (e : String) : UserInfoOutcome
  | okBody (u : UserInfo) : UserInfoOutcome
deriving Repr

/-- oauth.rs fetch_user_info, as a function of the HTTP outcome. -/
def fetch_user_info (outcome : UserInfoOutcome) : Except String UserInfo :=
  match outcome with
  | UserInfoOutcome.netErr e => Except.error e
  | UserInfoOutcome.httpBad status => Except.error ("获取用户信息失败: " ++ status)
  | UserInfoOutcome.parseErr e => Except.error e
  | UserInfoOutcome.okBody u => Except.ok u

/-- oauth.rs is_token_valid: local 5-minute-margin validity check. -/
def is_token_valid (now : Int) (expiry_date : Option Int) : Bool :=
  match expiry_date with
  | some expiry => decide (expiry > now + 300000)
  | none => false

/-- oauth.rs is_token_expiring_soon: within one hour (or unknown). -/
def is_token_expiring_soon (now : Int) (expiry_date : Option Int) : Bool :=
  match expiry_date with
  | some expiry => decide (expiry < now + 3600000)
  | none => true

/- ---------------------------------------------------------------
   token_refresh.rs
   --------------------------------------------------------------- -/

/-- token_refresh.rs TokenRefreshResult. -/
structure TokenRefreshResult where
  access_token : String
  refresh_token : Option String
  expiry_date : Option Int
deriving Repr

/-- Environment for one invocation of refresh_credential_token: the
instant taken by Utc::now() (in epoch millis and as its RFC-3339 text),
the outcome of the refresh POST, and chrono's
DateTime::from_timestamp_millis composed with to_rfc3339 (returning
none when the millis value is outside chrono's representable range). -/
structure RefreshEnv where
  nowMillis : Int
  nowRfc3339 : String
  http : TokenHttpOutcome
  fromMillisRfc3339 : Int → Option String

/-- token_refresh.rs refresh_credential_token: refresh via the token
endpoint, then fold the grant into the credential.  Returns the result
paired with the (possibly updated) credential, mirroring the &mut
parameter. -/
def refresh_credential_token (env : RefreshEnv)
    (credential : AntigravityCredentials) :
    Except String TokenRefreshResult × AntigravityCredentials :=
  match credential.refresh_token with
  | none => (Except.error "缺少 refresh_token", credential)
  | some refresh_token =>
    match refresh_access_token env.nowMillis env.http refresh_token with
    | Except.error e => (Except.error e, credential)
    | Except.ok result =>
      let credential := { credential with access_token := some result.access_token }
      let credential :=
        match result.refresh_token with
        | some rt => { credential with refresh_token := some rt }
        | none => credential
      let credential := { credential with expiry_date := result.expiry_date }
      let credential :=
        match result.expiry_date with
        | some expiry => { credential with expire := env.fromMillisRfc3339 expiry }
        | none => credential
      let credential :=
        { credential with
            last_refresh := some env.nowRfc3339,
            is_healthy := true,
            last_error := none }
      (Except.ok
        { access_token := result.access_token,
          refresh_token := result.refresh_token,
          expiry_date := result.expiry_date },
        credential)

/-- token_refresh.rs ensure_valid_token.  The third component is
instrumentation: whether refresh_credential_token was invoked. -/
def ensure_valid_token (env : RefreshEnv)
    (credential : AntigravityCredentials) :
    Except String String × AntigravityCredentials × Bool :=
  match credential.access_token with
  | none => (Except.error "缺少 access_token", credential, false)
  | some access_token =>
    if is_token_valid env.nowMillis credential.expiry_date then
      (Except.ok access_token, credential, false)
    else if credential.refresh_token.isSome then
      match refresh_credential_token env credential with
      | (Except.ok result, credential) => (Except.ok result.access_token, credential, true)
      | (Except.error e, credential) => (Except.error e, credential, true)
    else
      (Except.ok access_token, credential, false)

/-- Result of refresh_token_with_retry.  panicked models the
last_error.unwrap() panic reached when the loop body never ran. -/
inductive RetryResult where
  | ok (r : TokenRefreshResult) : RetryResult
  | err (e : String) : RetryResult
  | panicked : RetryResult
deriving Repr

/-- The for-loop of refresh_token_with_retry.  attempt is the zero-based
loop index, remaining the iterations left (attempt + remaining =
max_retries).  sleeps accumulates, in order, every
tokio::time::sleep duration in milliseconds (the source sleeps
1000 * 2^attempt after each failed attempt, the last included); calls
counts invocations of refresh_credential_token. -/
def retryLoop (envs : Nat → RefreshEnv) :
    AntigravityCredentials → Nat → Nat → Option String → List Nat → Nat →
    RetryResult × AntigravityCredentials × List Nat × Nat
  | credential, _, 0, last_error, sleeps, calls =>
    (match last_error with
     | none => RetryResult.panicked
     | some e => RetryResult.err e,
     credential, sleeps, calls)
  | credential, attempt, remaining + 1, _, sleeps, calls =>
    match refresh_credential_token (envs attempt) credential with
    | (Except.ok result, credential) =>
      (RetryResult.ok result, credential, sleeps, calls + 1)
    | (Except.error e, credential) =>
      retryLoop envs credential (attempt + 1) remaining (some e)
        (sleeps ++ [1000 * 2 ^ attempt]) (calls + 1)

/-- token_refresh.rs refresh_token_with_retry.  envs supplies the
environment seen by the attempt with each zero-based index. -/
def refresh_token_with_retry (envs : Nat → RefreshEnv)
    (credential : AntigravityCredentials) (max_retries : Nat) :
    RetryResult × AntigravityCredentials × List Nat × Nat :=
  retryLoop envs credential 0 max_retries none [] 0

/- ---------------------------------------------------------------
   api/code_assist.rs
   --------------------------------------------------------------- -/

/-- code_assist.rs LoadCodeAssistResponse. -/
structure LoadCodeAssistResponse where
  cloud_ai_companion_project : Option String
  current_tier : Option Json
  allowed_tiers : Option Json
deriving Repr

/-- code_assist.rs UserTier. -/
inductive UserTier where
  | Legacy : UserTier
  | Free : UserTier
  | Pro : UserTier
deriving Repr, DecidableEq

/-- code_assist.rs UserTier::as_str. -/
def UserTier.as_str : UserTier → String
  | UserTier.Legacy => "LEGACY"
  | UserTier.Free => "FREE"
  | UserTier.Pro => "PRO"

/-- The match on tier["id"].as_str() that appears (twice, verbatim) in
get_onboard_tier. -/
def tier_of_id : Option String → UserTier
  | some s =>
    if s = "PRO" then UserTier.Pro
    else if s = "FREE" then UserTier.Free
    else UserTier.Legacy
  | none => UserTier.Legacy

/-- The for-loop of get_onboard_tier over allowed tiers: first entry
whose isDefault is true (as_bool().unwrap_or(false)) decides. -/
def scanDefaultTier : List Json → Option UserTier
  | [] => none
  | tier :: rest =>
    if ((tier.index "isDefault").asBool).getD false then
      some (tier_of_id ((tier.index "id").asStr))
    else scanDefaultTier rest

/-- code_assist.rs get_onboard_tier. -/
def get_onboard_tier (load_res : LoadCodeAssistResponse) : UserTier :=
  match load_res.current_tier with
  | some current => tier_of_id ((current.index "id").asStr)
  | none =>
    match load_res.allowed_tiers with
    | some tiers =>
      match tiers.asArray with
      | some arr => (scanDefaultTier arr).getD UserTier.Legacy
      | none => UserTier.Legacy
    | none => UserTier.Legacy

/-- code_assist.rs OnboardResponse. -/
structure OnboardResponse where
  done : Bool
  response : Option Json
deriving Repr

/-- Outcome of one POST of the onboardUser request, as classified by
the reqwest/serde collaborators. -/
inductive PollOutcome where
  | netErr (e : String) : PollOutcome
  | httpErr (status : String) (body : String) : PollOutcome
  | parseErr (e : String) : PollOutcome
  | ok (done : Bool) (response : Option Json) : PollOutcome
deriving Repr

def MAX_ATTEMPTS : Nat := 12

/-- The polling loop of onboard_user.  polls gives the outcome of the
call made with the zero-based attempts counter value; on completion the
result carries the number of HTTP calls made.  fuel is a structural
termination device only: starting from onboard_user's arguments the
loop always returns before fuel runs out, because the source bails with
the timeout error once the incremented counter reaches MAX_ATTEMPTS. -/
def onboardLoop (polls : Nat → PollOutcome) :
    Nat → Nat → Except String (OnboardResponse × Nat)
  | _, 0 => Except.error "fuel exhausted (unreachable from onboard_user)"
  | attempts, fuel + 1 =>
    match polls attempts with
    | PollOutcome.netErr e => Except.error e
    | PollOutcome.httpErr status body =>
      Except.error ("onboardUser 失败: " ++ status ++ " - " ++ body)
    | PollOutcome.parseErr e => Except.error e
    | PollOutcome.ok done response =>
      if done then Except.ok ({ done := done, response := response }, attempts + 1)
      else if MAX_ATTEMPTS ≤ attempts + 1 then Except.error "onboardUser 操作超时"
      else onboardLoop polls (attempts + 1) fuel

/-- code_assist.rs onboard_user (its polling structure; the request
body construction has no bearing on the polling claims). -/
def onboard_user (polls : Nat → PollOutcome) :
    Except String (OnboardResponse × Nat) :=
  onboardLoop polls 0 MAX_ATTEMPTS

/- ---------------------------------------------------------------
   main.rs
   --------------------------------------------------------------- -/

/-- main.rs JsonRpcRequest, as deserialized by serde (jsonrpc, method
and id are required fields; params is optional). -/
structure JsonRpcRequest where
  jsonrpc : String
  method : String
  params : Option Json
  id : Json
deriving Repr

/-- main.rs JsonRpcError. -/
structure JsonRpcError where
  code : Int
  message : String
  data : Option Json
deriving Repr

/-- main.rs JsonRpcResponse. -/
structure JsonRpcResponse where
  jsonrpc : String
  result : Option Json
  error : Option JsonRpcError
  id : Json
deriving Repr

/-- JsonRpcResponse::success. -/
def JsonRpcResponse.success (id : Json) (result : Json) : JsonRpcResponse :=
  { jsonrpc := "2.0", result := some result, error := none, id := id }

/-- JsonRpcResponse::error. -/
def JsonRpcResponse.mkError (id : Json) (code : Int) (message : String) :
    JsonRpcResponse :=
  { jsonrpc := "2.0", result := none,
    error := some { code := code, message := message, data := none }, id := id }

/-- Environment for the dispatcher: the build-time package version, the
serde parsers for raw request lines and for credential params, the
current instant, chrono's millis-to-RFC-3339 text, uuid::Uuid::new_v4,
the rand/sha2/base64/urlencoding collaborators of the PKCE path, and
the outcomes of the three kinds of upstream HTTP call a handler can
make. -/
structure DispatchEnv where
  pkgVersion : String
  parseRequest : String → Except String JsonRpcRequest
  parseCredentials : Json → Except String AntigravityCredentials
  nowMillis : Int
  fromMillisRfc3339 : Int → Option String
  newUuid : String
  randByte : Nat → Fin 256
  sha256 : String → List Nat
  b64UrlNoPad : List Nat → String
  urlencode : String → String
  tokenRefreshHttp : TokenHttpOutcome
  tokenExchangeHttp : TokenHttpOutcome
  userInfoHttp : UserInfoOutcome

/-- main.rs handle_initialize. -/
def handle_initialize (env : DispatchEnv) (id : Json) (_params : Option Json) :
    JsonRpcResponse :=
  JsonRpcResponse.success id
    (Json.obj
      [("provider_id", Json.str "antigravity"),
       ("display_name", Json.str "Antigravity (Gemini CLI)"),
       ("version", Json.str env.pkgVersion),
       ("supported_auth_types", Json.arr [Json.str "oauth"]),
       ("capabilities",
        Json.obj
          [("token_refresh", Json.bool true),
           ("pkce", Json.bool true),
           ("code_assist", Json.bool true)])])

/-- main.rs handle_acquire_credential.  serde_json::to_value of the
AcquiredCredential: auth_type OAuth serializes (rename_all snake_case)
as the string below; expires_at is chrono's serialization of
from_timestamp_millis, modelled through fromMillisRfc3339. -/
def handle_acquire_credential (env : DispatchEnv) (id : Json)
    (params : Option Json) : JsonRpcResponse :=
  match params with
  | none => JsonRpcResponse.mkError id (-32602) "Missing params"
  | some p =>
    match env.parseCredentials p with
    | Except.error e => JsonRpcResponse.mkError id (-32602) ("Invalid params: " ++ e)
    | Except.ok credential =>
      match credential.access_token with
      | none => JsonRpcResponse.mkError id (-32602) "Missing access_token"
      | some token =>
        JsonRpcResponse.success id
          (Json.obj
            [("credential_id", Json.str credential.id),
             ("auth_type", Json.str "o_auth"),
             ("token", Json.str token),
             ("email", Json.ofOptStr credential.email),
             ("project_id",
              Json.ofOptStr ((credential.project_id).or credential.temp_project_id)),
             ("expires_at",
              Json.ofOptStr (credential.expiry_date.bind env.fromMillisRfc3339))])

/-- main.rs handle_release_credential. -/
def handle_release_credential (id : Json) (_params : Option Json) :
    JsonRpcResponse :=
  JsonRpcResponse.success id (Json.obj [("success", Json.bool true)])

/-- main.rs handle_list_credentials. -/
def handle_list_credentials (id : Json) (_params : Option Json) :
    JsonRpcResponse :=
  JsonRpcResponse.success id (Json.obj [("credentials", Json.arr [])])

/-- main.rs handle_add_credential. -/
def handle_add_credential (env : DispatchEnv) (id : Json)
    (params : Option Json) : JsonRpcResponse :=
  match params with
  | none => JsonRpcResponse.mkError id (-32602) "Missing params"
  | some p =>
    match env.parseCredentials p with
    | Except.error e => JsonRpcResponse.mkError id (-32602) ("Invalid params: " ++ e)
    | Except.ok credential =>
      JsonRpcResponse.success id
        (Json.obj
          [("success", Json.bool true),
           ("credential_id", Json.str credential.id)])

/-- main.rs handle_refresh_token. -/
def handle_refresh_token (env : DispatchEnv) (id : Json)
    (params : Option Json) : JsonRpcResponse :=
  match params with
  | none => JsonRpcResponse.mkError id (-32602) "Missing params"
  | some p =>
    match (p.get "refresh_token").bind Json.asStr with
    | none => JsonRpcResponse.mkError id (-32602) "Missing refresh_token"
    | some refresh_token =>
      match refresh_access_token env.nowMillis env.tokenRefreshHttp refresh_token with
      | Except.ok result =>
        JsonRpcResponse.success id
          (Json.obj
            [("access_token", Json.str result.access_token),
             ("refresh_token", Json.ofOptStr result.refresh_token),
             ("expiry_date", Json.ofOptInt result.expiry_date),
             ("token_type", Json.str result.token_type)])
      | Except.error e =>
        JsonRpcResponse.mkError id (-32000) ("Token refresh failed: " ++ e)

/-- main.rs handle_validate_credential. -/
def handle_validate_credential (env : DispatchEnv) (id : Json)
    (params : Option Json) : JsonRpcResponse :=
  match params with
  | none => JsonRpcResponse.mkError id (-32602) "Missing params"
  | some p =>
    match (p.get "access_token").bind Json.asStr with
    | none => JsonRpcResponse.mkError id (-32602) "Missing access_token"
    | some _access_token =>
      let is_valid := (fetch_user_info env.userInfoHttp).toOption.isSome
      JsonRpcResponse.success id (Json.obj [("valid", Json.bool is_valid)])

/-- main.rs handle_get_auth_url. -/
def handle_get_auth_url (env : DispatchEnv) (id : Json)
    (params : Option Json) : JsonRpcResponse :=
  let state :=
    ((params.bind (fun p => p.get "state")).bind Json.asStr).getD env.newUuid
  let pkce := generate_pkce env.randByte env.sha256 env.b64UrlNoPad
  let auth_url := generate_auth_url env.urlencode state pkce.code_challenge
  JsonRpcResponse.success id
    (Json.obj
      [("auth_url", Json.str auth_url),
       ("state", Json.str state),
       ("code_verifier", Json.str pkce.code_verifier),
       ("code_challenge", Json.str pkce.code_challenge)])

/-- main.rs handle_exchange_code. -/
def handle_exchange_code (env : DispatchEnv) (id : Json)
    (params : Option Json) : JsonRpcResponse :=
  match params with
  | none => JsonRpcResponse.mkError id (-32602) "Missing params"
  | some p =>
    match (p.get "code").bind Json.asStr with
    | none => JsonRpcResponse.mkError id (-32602) "Missing code"
    | some _code =>
      match (p.get "code_verifier").bind Json.asStr with
      | none => JsonRpcResponse.mkError id (-32602) "Missing code_verifier"
      | some _code_verifier =>
        let _redirect_uri :=
          ((p.get "redirect_uri").bind Json.asStr).getD OAUTH_REDIRECT_URI
        match exchange_code_for_tokens env.nowMillis env.tokenExchangeHttp with
        | Except.ok result =>
          let user_info := (fetch_user_info env.userInfoHttp).toOption
          JsonRpcResponse.success id
            (Json.obj
              [("access_token", Json.str result.access_token),
               ("refresh_token", Json.ofOptStr result.refresh_token),
               ("expiry_date", Json.ofOptInt result.expiry_date),
               ("token_type", Json.str result.token_type),
               ("scope", Json.ofOptStr result.scope),
               ("email", Json.ofOptStr (user_info.bind (fun u => u.email))),
               ("user_id", Json.ofOptStr (user_info.bind (fun u => u.id)))])
        | Except.error e =>
          JsonRpcResponse.mkError id (-32000) ("Code exchange failed: " ++ e)

/-- main.rs handle_health_check. -/
def handle_health_check (env : DispatchEnv) (id : Json) : JsonRpcResponse :=
  JsonRpcResponse.success id
    (Json.obj
      [("status", Json.str "healthy"),
       ("provider", Json.str "antigravity"),
       ("version", Json.str env.pkgVersion)])

/-- main.rs handle_shutdown. -/
def handle_shutdown (id : Json) : JsonRpcResponse :=
  JsonRpcResponse.success id (Json.obj [("success", Json.bool true)])

/-- The method names recognized by handle_request's match. -/
def recognizedMethods : List String :=
  ["initialize", "acquire_credential", "release_credential", "list_credentials",
   "add_credential", "remove_credential", "refresh_token", "validate_credential",
   "get_auth_url", "exchange_code", "health_check", "shutdown"]

/-- main.rs handle_request. -/
def handle_request (env : DispatchEnv) (request : JsonRpcRequest) :
    JsonRpcResponse :=
  let id := request.id
  match request.method with
  | "initialize" => handle_initialize env id request.params
  | "acquire_credential" => handle_acquire_credential env id request.params
  | "release_credential" => handle_release_credential id request.params
  | "list_credentials" => handle_list_credentials id request.params
  | "add_credential" => handle_add_credential env id request.params
  | "remove_credential" =>
    JsonRpcResponse.success id (Json.obj [("success", Json.bool true)])
  | "refresh_token" => handle_refresh_token env id request.params
  | "validate_credential" => handle_validate_credential env id request.params
  | "get_auth_url" => handle_get_auth_url env id request.params
  | "exchange_code" => handle_exchange_code env id request.params
  | "health_check" => handle_health_check env id
  | "shutdown" => handle_shutdown id
  | m => JsonRpcResponse.mkError id (-32601) ("Method not found: " ++ m)

/-- Rust char::is_whitespace: the Unicode White_Space property
(U+0009-U+000D, U+0020, U+0085, U+00A0, U+1680, U+2000-U+200A, U+2028,
U+2029, U+202F, U+205F, U+3000) — wider than Lean's ASCII-only
Char.isWhitespace. -/
def rustIsWhitespace (c : Char) : Bool :=
  c.val = 0x09 || c.val = 0x0A || c.val = 0x0B || c.val = 0x0C ||
  c.val = 0x0D || c.val = 0x20 || c.val = 0x85 || c.val = 0xA0 ||
  c.val = 0x1680 || (0x2000 ≤ c.val && c.val ≤ 0x200A) ||
  c.val = 0x2028 || c.val = 0x2029 || c.val = 0x202F || c.val = 0x205F ||
  c.val = 0x3000

/-- Rust str::trim: strip leading and trailing Unicode White_Space.
(Defined here executably; Lean's String.trim neither reduces in the
kernel nor strips the same character set.) -/
def rustTrim (s : String) : String :=
  String.mk
    (((s.toList.dropWhile rustIsWhitespace).reverse.dropWhile
        rustIsWhitespace).reverse)

/-- One unit read from stdin by the server loop: either a read error or
a line of text. -/
inductive InLine where
  | readErr (e : String) : InLine
  | line (s : String) : InLine
deriving Repr

/-- main.rs run_jsonrpc_server, as the list of responses written for a
list of input reads.  Read errors and whitespace-only lines are skipped
with no output; a line serde cannot parse produces a -32700 response
with a null id; otherwise the line's request is dispatched.  (writeln!
and flush are modelled as always succeeding.) -/
def run_jsonrpc_server (env : DispatchEnv) : List InLine → List JsonRpcResponse
  | [] => []
  | InLine.readErr _ :: rest => run_jsonrpc_server env rest
  | InLine.line l :: rest =>
    if rustTrim l = "" then run_jsonrpc_server env rest
    else
      match env.parseRequest l with
      | Except.error e =>
        JsonRpcResponse.mkError Json.null (-32700) ("Parse error: " ++ e)
          :: run_jsonrpc_server env rest
      | Except.ok request =>
        handle_request env request :: run_jsonrpc_server env rest

/- ---------------------------------------------------------------
   Concrete sample inputs used by witnesses and counterexamples
   --------------------------------------------------------------- -/

/-- A credential holding both tokens, healthy, with no recorded error. -/
def sampleCred : AntigravityCredentials :=
  { id := "cred-1", access_token := some "old-token",
    refresh_token := some "rt-1", expiry_date := some 1000 }

/-- A refresh environment whose token POST is rejected upstream. -/
def envHttpFail : RefreshEnv :=
  { nowMillis := 0, nowRfc3339 := "1970-01-01T00:00:00+00:00",
    http := TokenHttpOutcome.httpBad "400 Bad Request" "invalid_grant",
    fromMillisRfc3339 := fun _ => none }

/-- A refresh environment whose token POST succeeds with a body that
carries only an access token (no refresh token, no expiry). -/
def envHttpOk : RefreshEnv :=
  { nowMillis := 0, nowRfc3339 := "1970-01-01T00:00:00+00:00",
    http := TokenHttpOutcome.okBody { access_token := "new-token" },
    fromMillisRfc3339 := fun _ => none }

/-- A dispatch environment with fixed collaborator behaviour: serde
rejects every request line the way it rejects an empty string. -/
def sampleDispatchEnv : DispatchEnv :=
  { pkgVersion := "0.1.0",
    parseRequest := fun _ => Except.error "EOF while parsing a value at line 1 column 0",
    parseCredentials := fun _ => Except.error "invalid type",
    nowMillis := 0,
    fromMillisRfc3339 := fun _ => none,
    newUuid := "00000000-0000-4000-8000-000000000000",
    randByte := fun _ => (0 : Fin 256),
    sha256 := fun _ => [],
    b64UrlNoPad := fun _ => "digest",
    urlencode := fun s => s,
    tokenRefreshHttp := TokenHttpOutcome.httpBad "400" "b",
    tokenExchangeHttp := TokenHttpOutcome.httpBad "400" "b",
    userInfoHttp := UserInfoOutcome.httpBad "401" }

/-- A credential with a usable refresh token but no access token. -/
def credNoAccess : AntigravityCredentials :=
  { id := "cred-2", access_token := none, refresh_token := some "rt-2" }

/-- Poll sequence answering done:false on the first eleven calls and
done:true on the twelfth. -/
def pollsElevenThenDone : Nat → PollOutcome :=
  fun n => if n < 11 then PollOutcome.ok false none else PollOutcome.ok true none

/-- Poll sequence answering done:false on the first twelve calls and
done:true from the thirteenth call on — so a run that made a
thirteenth call would succeed rather than time out. -/
def pollsTwelveFalse : Nat → PollOutcome :=
  fun n => if n < 12 then PollOutcome.ok false none else PollOutcome.ok true none

/-- Poll sequence whose second call is rejected upstream. -/
def pollsSecondRejected : Nat → PollOutcome :=
  fun n => if n = 0 then PollOutcome.ok false none
    else PollOutcome.httpErr "500 Internal Server Error" "boom"

/-- Membership in the unreserved character set [A-Za-z0-9-._~]. -/
def unreservedChar (c : Char) : Bool :=
  ('A' ≤ c && c ≤ 'Z') || ('a' ≤ c && c ≤ 'z') || ('0' ≤ c && c ≤ '9') ||
  c = '-' || c = '.' || c = '_' || c = '~'

/-- A concrete byte source for the witness. -/
def randByteSample : Nat → Fin 256 := fun i => ⟨i % 256, Nat.mod_lt _ (by norm_num)⟩

/-- A concrete stand-in digest function for the witness. -/
def shaSample : String → List Nat := fun _ => [0, 1, 2]

/-- A concrete stand-in encoder for the witness. -/
def b64Sample : List Nat → String := fun _ => "digest"

/- ---------------------------------------------------------------
   Helper lemmas
   --------------------------------------------------------------- -/

/-- When the refresh POST fails, refresh_credential_token returns the
error and hands back the credential exactly as it received it. -/
theorem refresh_credential_token_of_http_error (env : RefreshEnv)
    (cred : AntigravityCredentials) (rt e : String)
    (hrt : cred.refresh_token = some rt)
    (hra : refresh_access_token env.nowMillis env.http rt = Except.error e) :
    refresh_credential_token env cred = (Except.error e, cred) := by
  simp [refresh_credential_token, hrt, hra]

/-- Whenever refresh_credential_token reports an error (missing refresh
token or a failed exchange), the credential is returned unchanged. -/
theorem refresh_credential_token_err_frame (env : RefreshEnv)
    (cred : AntigravityCredentials) (e : String)
    (h : (refresh_credential_token env cred).1 = Except.error e) :
    refresh_credential_token env cred = (Except.error e, cred) := by
  cases hrt : cred.refresh_token with
  | none =>
    simp [refresh_credential_token, hrt] at h ⊢
    exact h
  | some rt =>
    cases hra : refresh_access_token env.nowMillis env.http rt with
    | error e2 =>
      simp [refresh_credential_token, hrt, hra] at h ⊢
      exact h
    | ok result =>
      simp [refresh_credential_token, hrt, hra] at h

/- ---------------------------------------------------------------
   C1
   --------------------------------------------------------------- -/

/-- C1 counterexample: at a concrete credential whose refresh POST is
rejected upstream, refresh_credential_token returns the error, yet the
record's is_healthy flag is still true and last_error is still none —
the claim's required mutation (is_healthy set false, last_error set to
the message) does not happen. -/
theorem refresh_credential_token_c1_counterexample :
    (refresh_credential_token envHttpFail sampleCred).1 =
      Except.error "Token 刷新失败: 400 Bad Request - invalid_grant" ∧
    (refresh_credential_token envHttpFail sampleCred).2.is_healthy = true ∧
    (refresh_credential_token envHttpFail sampleCred).2.last_error = none ∧
    (refresh_credential_token envHttpFail sampleCred).2.access_token =
      some "old-token" :=
  ⟨rfl, rfl, rfl, rfl⟩

/-- C1 (amended): when the exchange client fails, refresh_credential_token
returns the error and hands the credential back entirely unchanged — the
expired access_token stays in place, and is_healthy and last_error keep
their prior values rather than being set to false and the error message. -/
theorem refresh_credential_token_failure_spec (env : RefreshEnv)
    (cred : AntigravityCredentials) (rt e : String)
    (hrt : cred.refresh_token = some rt)
    (hra : refresh_access_token env.nowMillis env.http rt = Except.error e) :
    (refresh_credential_token env cred).1 = Except.error e ∧
    (refresh_credential_token env cred).2 = cred := by
  have h := refresh_credential_token_of_http_error env cred rt e hrt hra
  rw [h]
  exact ⟨rfl, rfl⟩

/-- C1 witness: the amended theorem applied at the concrete failing
environment and credential. -/
theorem refresh_credential_token_failure_spec_witness :
    (refresh_credential_token envHttpFail sampleCred).1 =
      Except.error "Token 刷新失败: 400 Bad Request - invalid_grant" ∧
    (refresh_credential_token envHttpFail sampleCred).2 = sampleCred :=
  refresh_credential_token_failure_spec envHttpFail sampleCred "rt-1"
    "Token 刷新失败: 400 Bad Request - invalid_grant" rfl rfl

/- ---------------------------------------------------------------
   C2
   --------------------------------------------------------------- -/


/-- C2 counterexample: on a credential with no access token but a
refresh token, and an environment in which the refresh would succeed,
ensure_valid_token fails with the missing-access-token error and never
calls refresh — the claim's second branch ("if refresh_token is present,
regardless of whether access_token is present, it performs a refresh")
does not hold on the code. -/
theorem ensure_valid_token_c2_counterexample :
    ensure_valid_token envHttpOk credNoAccess =
      (Except.error "缺少 access_token", credNoAccess, false) ∧
    (refresh_credential_token envHttpOk credNoAccess).1 =
      Except.ok { access_token := "new-token", refresh_token := some "rt-2",
                  expiry_date := some 3600000 } :=
  ⟨rfl, rfl⟩

/-- C2 (amended): ensure_valid_token first requires access_token to be
present, failing with 缺少 access_token when it is absent even if a
refresh token is stored; with an access token present it follows the
three-branch algorithm: if is_valid(expiry_date) holds it returns the
stored token unchanged without invoking refresh; otherwise, if
refresh_token is present, it invokes refresh_credential_token and
returns the freshly obtained access token (propagating a refresh
error); otherwise it returns the existing, possibly stale, access token
as a success. -/
theorem ensure_valid_token_branches (env : RefreshEnv)
    (cred : AntigravityCredentials) :
    (cred.access_token = none →
      ensure_valid_token env cred = (Except.error "缺少 access_token", cred, false)) ∧
    (∀ t, cred.access_token = some t →
      is_token_valid env.nowMillis cred.expiry_date = true →
      ensure_valid_token env cred = (Except.ok t, cred, false)) ∧
    (∀ t r c2, cred.access_token = some t →
      is_token_valid env.nowMillis cred.expiry_date = false →
      cred.refresh_token.isSome = true →
      refresh_credential_token env cred = (Except.ok r, c2) →
      ensure_valid_token env cred = (Except.ok r.access_token, c2, true)) ∧
    (∀ t e c2, cred.access_token = some t →
      is_token_valid env.nowMillis cred.expiry_date = false →
      cred.refresh_token.isSome = true →
      refresh_credential_token env cred = (Except.error e, c2) →
      ensure_valid_token env cred = (Except.error e, c2, true)) ∧
    (∀ t, cred.access_token = some t →
      is_token_valid env.nowMillis cred.expiry_date = false →
      cred.refresh_token = none →
      ensure_valid_token env cred = (Except.ok t, cred, false)) := by
  refine ⟨fun h => ?_, fun t ht hv => ?_, fun t r c2 ht hv hr hrc => ?_,
    fun t e c2 ht hv hr hrc => ?_, fun t ht hv hr => ?_⟩
  · simp [ensure_valid_token, h]
  · simp [ensure_valid_token, ht, hv]
  · simp [ensure_valid_token, ht, hv, hr, hrc]
  · simp [ensure_valid_token, ht, hv, hr, hrc]
  · simp [ensure_valid_token, ht, hv, hr]

/-- C2 witness: the amended theorem's cheap path applied at a concrete
credential whose access token is still valid. -/
theorem ensure_valid_token_branches_witness :
    ensure_valid_token envHttpOk
        { sampleCred with expiry_date := some 400000 } =
      (Except.ok "old-token", { sampleCred with expiry_date := some 400000 }, false) :=
  (ensure_valid_token_branches envHttpOk
      { sampleCred with expiry_date := some 400000 }).2.1
    "old-token" rfl rfl

/- ---------------------------------------------------------------
   C5
   --------------------------------------------------------------- -/

/-- C5: when the refresh succeeds and the upstream body omits a new
refresh token, the stored refresh token after the refresh equals the
one stored before it — the old token is written back, not cleared or
rotated. -/
theorem refresh_preserves_old_refresh_token (env : RefreshEnv)
    (cred : AntigravityCredentials) (rt : String) (t : TokenResponse)
    (hrt : cred.refresh_token = some rt)
    (hhttp : env.http = TokenHttpOutcome.okBody t)
    (hnone : t.refresh_token = none) :
    (refresh_credential_token env cred).2.refresh_token = cred.refresh_token ∧
    ∃ r, (refresh_credential_token env cred).1 = Except.ok r ∧
      r.refresh_token = some rt := by
  rcases hte : t.expiry_date with _ | ed
  · rcases hei : t.expires_in with _ | ei
    · simp [refresh_credential_token, refresh_access_token, hrt, hhttp, hnone, hte, hei]
    · simp [refresh_credential_token, refresh_access_token, hrt, hhttp, hnone, hte, hei]
  · simp [refresh_credential_token, refresh_access_token, hrt, hhttp, hnone, hte]

/-- C5 witness: the theorem applied at a concrete credential and a
successful refresh whose body has no refresh token. -/
theorem refresh_preserves_old_refresh_token_witness :
    (refresh_credential_token envHttpOk sampleCred).2.refresh_token =
      sampleCred.refresh_token ∧
    ∃ r, (refresh_credential_token envHttpOk sampleCred).1 = Except.ok r ∧
      r.refresh_token = some "rt-1" :=
  refresh_preserves_old_refresh_token envHttpOk sampleCred "rt-1"
    { access_token := "new-token" } rfl rfl rfl

/- ---------------------------------------------------------------
   Retry-loop lemmas (shared by the retry claims)
   --------------------------------------------------------------- -/

/-- Shifting the start index by one inside the backoff-delay list. -/
theorem range_map_backoff_shift (g : Nat → Nat) (k a : Nat) :
    (List.range (k + 1)).map (fun i => g (a + i)) =
      g a :: (List.range k).map (fun i => g (a + 1 + i)) := by
  have h : ((fun i => g (a + i)) ∘ Nat.succ) = fun i => g (a + 1 + i) := by
    funext i
    simp only [Function.comp_apply]
    congr 1
    omega
  rw [List.range_succ_eq_map]
  simp only [List.map_cons, List.map_map, Nat.add_zero, h]

/-- If every attempt the loop will make fails, retryLoop runs all of
them, sleeps the exponential backoff after each (the last included),
leaves the credential unchanged, and surfaces the last attempt's error. -/
theorem retryLoop_all_fail :
    ∀ (remaining : Nat) (envs : Nat → RefreshEnv)
      (cred : AntigravityCredentials) (attempt : Nat)
      (lastErr : Option String) (sleeps : List Nat) (calls : Nat) (e : String),
      (∀ i, i + 1 < remaining →
        ∃ e2, (refresh_credential_token (envs (attempt + i)) cred).1 = Except.error e2) →
      remaining ≠ 0 →
      (refresh_credential_token (envs (attempt + (remaining - 1))) cred).1 =
        Except.error e →
      retryLoop envs cred attempt remaining lastErr sleeps calls =
        (RetryResult.err e, cred,
         sleeps ++ (List.range remaining).map (fun i => 1000 * 2 ^ (attempt + i)),
         calls + remaining)
  | 0, _, _, _, _, _, _, _, _, hne, _ => absurd rfl hne
  | 1, envs, cred, attempt, lastErr, sleeps, calls, e, _, _, hlast => by
    have hl : (refresh_credential_token (envs attempt) cred).1 = Except.error e := by
      simpa using hlast
    have H := refresh_credential_token_err_frame (envs attempt) cred e hl
    simp [retryLoop, H, List.range_succ]
  | (r + 1) + 1, envs, cred, attempt, lastErr, sleeps, calls, e, hfail, _, hlast => by
    obtain ⟨e0, he0⟩ := hfail 0 (by omega)
    have h0 : (refresh_credential_token (envs attempt) cred).1 = Except.error e0 := by
      simpa using he0
    have H0 := refresh_credential_token_err_frame (envs attempt) cred e0 h0
    have step :
        retryLoop envs cred attempt (r + 1 + 1) lastErr sleeps calls =
          retryLoop envs cred (attempt + 1) (r + 1) (some e0)
            (sleeps ++ [1000 * 2 ^ attempt]) (calls + 1) := by
      simp [retryLoop, H0]
    have hfail2 : ∀ i, i + 1 < r + 1 →
        ∃ e2, (refresh_credential_token (envs (attempt + 1 + i)) cred).1 =
          Except.error e2 := by
      intro i hi
      obtain ⟨e2, he2⟩ := hfail (i + 1) (by omega)
      refine ⟨e2, ?_⟩
      rw [show attempt + 1 + i = attempt + (i + 1) from by omega]
      exact he2
    have hlast2 :
        (refresh_credential_token (envs (attempt + 1 + (r + 1 - 1))) cred).1 =
          Except.error e := by
      rw [show attempt + 1 + (r + 1 - 1) = attempt + (r + 1 + 1 - 1) from by omega]
      exact hlast
    rw [step, retryLoop_all_fail (r + 1) envs cred (attempt + 1) (some e0)
      (sleeps ++ [1000 * 2 ^ attempt]) (calls + 1) e hfail2 (by omega) hlast2]
    refine congrArg _ (congrArg _ ?_)
    refine Prod.ext ?_ (by omega)
    simp only [range_map_backoff_shift (fun i => 1000 * 2 ^ i) (r + 1) attempt]
    simp [List.append_assoc]

/-- If the first k attempts fail and attempt k succeeds, retryLoop
returns that success immediately after k + 1 calls, having slept the
backoff after each of the k failures. -/
theorem retryLoop_success_after_failures :
    ∀ (k : Nat) (envs : Nat → RefreshEnv) (cred : AntigravityCredentials)
      (attempt remaining : Nat) (lastErr : Option String) (sleeps : List Nat)
      (calls : Nat) (r : TokenRefreshResult) (c2 : AntigravityCredentials),
      k < remaining →
      (∀ i, i < k →
        ∃ e, (refresh_credential_token (envs (attempt + i)) cred).1 = Except.error e) →
      refresh_credential_token (envs (attempt + k)) cred = (Except.ok r, c2) →
      retryLoop envs cred attempt remaining lastErr sleeps calls =
        (RetryResult.ok r, c2,
         sleeps ++ (List.range k).map (fun i => 1000 * 2 ^ (attempt + i)),
         calls + (k + 1))
  | 0, envs, cred, attempt, remaining, lastErr, sleeps, calls, r, c2 => by
    intro hk _ hsucc
    have hs : refresh_credential_token (envs attempt) cred = (Except.ok r, c2) := by
      simpa using hsucc
    match remaining, hk with
    | rem + 1, _ => simp [retryLoop, hs]
  | k + 1, envs, cred, attempt, remaining, lastErr, sleeps, calls, r, c2 => by
    intro hk hfail hsucc
    obtain ⟨e0, he0⟩ := hfail 0 (by omega)
    have h0 : (refresh_credential_token (envs attempt) cred).1 = Except.error e0 := by
      simpa using he0
    have H0 := refresh_credential_token_err_frame (envs attempt) cred e0 h0
    match remaining, hk with
    | rem + 1, hk =>
      have step :
          retryLoop envs cred attempt (rem + 1) lastErr sleeps calls =
            retryLoop envs cred (attempt + 1) rem (some e0)
              (sleeps ++ [1000 * 2 ^ attempt]) (calls + 1) := by
        simp [retryLoop, H0]
      have hfail2 : ∀ i, i < k →
          ∃ e, (refresh_credential_token (envs (attempt + 1 + i)) cred).1 =
            Except.error e := by
        intro i hi
        obtain ⟨e2, he2⟩ := hfail (i + 1) (by omega)
        refine ⟨e2, ?_⟩
        rw [show attempt + 1 + i = attempt + (i + 1) from by omega]
        exact he2
      have hsucc2 :
          refresh_credential_token (envs (attempt + 1 + k)) cred = (Except.ok r, c2) := by
        rw [show attempt + 1 + k = attempt + (k + 1) from by omega]
        exact hsucc
      rw [step, retryLoop_success_after_failures k envs cred (attempt + 1) rem
        (some e0) (sleeps ++ [1000 * 2 ^ attempt]) (calls + 1) r c2
        (by omega) hfail2 hsucc2]
      refine congrArg _ (congrArg _ ?_)
      refine Prod.ext ?_ (by omega)
      simp only [range_map_backoff_shift (fun i => 1000 * 2 ^ i) k attempt]
      simp [List.append_assoc]

/-- The loop's call counter never decreases. -/
theorem retryLoop_calls_le :
    ∀ (remaining : Nat) (envs : Nat → RefreshEnv)
      (cred : AntigravityCredentials) (attempt : Nat) (lastErr : Option String)
      (sleeps : List Nat) (calls : Nat),
      calls ≤ (retryLoop envs cred attempt remaining lastErr sleeps calls).2.2.2
  | 0, envs, cred, attempt, lastErr, sleeps, calls => by
    cases lastErr <;> simp [retryLoop]
  | rem + 1, envs, cred, attempt, lastErr, sleeps, calls => by
    rcases hr : refresh_credential_token (envs attempt) cred with ⟨res, c⟩
    cases res with
    | ok r => simp [retryLoop, hr]
    | error e =>
      have := retryLoop_calls_le rem envs c (attempt + 1) (some e)
        (sleeps ++ [1000 * 2 ^ attempt]) (calls + 1)
      simp only [retryLoop, hr]
      omega

/- ---------------------------------------------------------------
   C4
   --------------------------------------------------------------- -/

/-- C4: with max_attempts = 3 and a refresh that fails on every
attempt, refresh_token_with_retry makes exactly 3 attempts, sleeps
1000, 2000 and 4000 milliseconds (1000 * 2^attempt for zero-based
attempts 0, 1, 2), returns the error of the last attempt (earlier
errors discarded) and leaves the credential unchanged; and in general
the first successful attempt is returned immediately, after exactly
k + 1 calls when the first k attempts failed. -/
theorem refresh_token_with_retry_spec :
    (∀ (envs : Nat → RefreshEnv) (cred : AntigravityCredentials) (e0 e1 e2 : String),
      (refresh_credential_token (envs 0) cred).1 = Except.error e0 →
      (refresh_credential_token (envs 1) cred).1 = Except.error e1 →
      (refresh_credential_token (envs 2) cred).1 = Except.error e2 →
      refresh_token_with_retry envs cred 3 =
        (RetryResult.err e2, cred, [1000, 2000, 4000], 3)) ∧
    (∀ (envs : Nat → RefreshEnv) (cred : AntigravityCredentials) (k max : Nat)
      (r : TokenRefreshResult) (c2 : AntigravityCredentials),
      k < max →
      (∀ i, i < k →
        ∃ e, (refresh_credential_token (envs i) cred).1 = Except.error e) →
      refresh_credential_token (envs k) cred = (Except.ok r, c2) →
      refresh_token_with_retry envs cred max =
        (RetryResult.ok r, c2, (List.range k).map (fun i => 1000 * 2 ^ i), k + 1)) := by
  constructor
  · intro envs cred e0 e1 e2 h0 h1 h2
    have hfail : ∀ i, i + 1 < 3 →
        ∃ x, (refresh_credential_token (envs (0 + i)) cred).1 = Except.error x := by
      intro i hi
      have hi2 : i < 2 := by omega
      interval_cases i
      · exact ⟨e0, by simpa using h0⟩
      · exact ⟨e1, by simpa using h1⟩
    have hlast : (refresh_credential_token (envs (0 + (3 - 1))) cred).1 =
        Except.error e2 := by simpa using h2
    have H := retryLoop_all_fail 3 envs cred 0 none [] 0 e2 hfail (by omega) hlast
    simp only [refresh_token_with_retry]
    rw [H]
    rfl
  · intro envs cred k max r c2 hk hfail hsucc
    have hfail2 : ∀ i, i < k →
        ∃ e, (refresh_credential_token (envs (0 + i)) cred).1 = Except.error e := by
      simpa using hfail
    have hsucc2 : refresh_credential_token (envs (0 + k)) cred = (Except.ok r, c2) := by
      simpa using hsucc
    have H := retryLoop_success_after_failures k envs cred 0 max none [] 0 r c2
      hk hfail2 hsucc2
    simp only [refresh_token_with_retry]
    rw [H]
    simp

/-- C4 witness: the all-fail part applied with a collaborator that
always answers HTTP 400. -/
theorem refresh_token_with_retry_spec_witness :
    refresh_token_with_retry (fun _ => envHttpFail) sampleCred 3 =
      (RetryResult.err "Token 刷新失败: 400 Bad Request - invalid_grant",
       sampleCred, [1000, 2000, 4000], 3) :=
  refresh_token_with_retry_spec.1 (fun _ => envHttpFail) sampleCred
    "Token 刷新失败: 400 Bad Request - invalid_grant"
    "Token 刷新失败: 400 Bad Request - invalid_grant"
    "Token 刷新失败: 400 Bad Request - invalid_grant" rfl rfl rfl

/- ---------------------------------------------------------------
   C9
   --------------------------------------------------------------- -/

/-- C9: with max_attempts = 0 the loop body never runs, last_error is
never set, and the final last_error.unwrap() panics (modelled as the
panicked result) instead of returning an error value; an err result is
only ever produced after at least one attempt (call count at least 1). -/
theorem refresh_token_with_retry_zero_panics :
    (∀ (envs : Nat → RefreshEnv) (cred : AntigravityCredentials),
      refresh_token_with_retry envs cred 0 =
        (RetryResult.panicked, cred, [], 0)) ∧
    (∀ (envs : Nat → RefreshEnv) (cred : AntigravityCredentials)
      (max : Nat) (e : String),
      (refresh_token_with_retry envs cred max).1 = RetryResult.err e →
      1 ≤ (refresh_token_with_retry envs cred max).2.2.2) := by
  constructor
  · intro envs cred
    rfl
  · intro envs cred max e h
    cases max with
    | zero => simp [refresh_token_with_retry, retryLoop] at h
    | succ m =>
      rcases hr : refresh_credential_token (envs 0) cred with ⟨res, c⟩
      cases res with
      | ok r => simp [refresh_token_with_retry, retryLoop, hr] at h
      | error e0 =>
        simp only [refresh_token_with_retry, retryLoop, hr]
        exact Nat.le_trans (by omega)
          (retryLoop_calls_le m envs c (0 + 1) (some e0)
            ([] ++ [1000 * 2 ^ 0]) (0 + 1))

/-- C9 witness: the zero-attempt panic at a concrete credential, and a
one-attempt err with call count 1. -/
theorem refresh_token_with_retry_zero_panics_witness :
    refresh_token_with_retry (fun _ => envHttpFail) sampleCred 0 =
      (RetryResult.panicked, sampleCred, [], 0) ∧
    1 ≤ (refresh_token_with_retry (fun _ => envHttpFail) sampleCred 1).2.2.2 :=
  ⟨refresh_token_with_retry_zero_panics.1 (fun _ => envHttpFail) sampleCred,
   refresh_token_with_retry_zero_panics.2 (fun _ => envHttpFail) sampleCred 1
     "Token 刷新失败: 400 Bad Request - invalid_grant" rfl⟩

/- ---------------------------------------------------------------
   C3
   --------------------------------------------------------------- -/


/-- If the first k polls answer done:false and poll k returns a
non-success HTTP status (with k within the attempt cap), the loop fails
right there with the upstream-rejected message. -/
theorem onboardLoop_httpErr :
    ∀ (k attempts fuel : Nat) (polls : Nat → PollOutcome) (s b : String),
      attempts + k + 1 ≤ 12 →
      k < fuel →
      (∀ i, i < k → polls (attempts + i) = PollOutcome.ok false none) →
      polls (attempts + k) = PollOutcome.httpErr s b →
      onboardLoop polls attempts fuel =
        Except.error ("onboardUser 失败: " ++ s ++ " - " ++ b)
  | 0, attempts, fuel, polls, s, b => by
    intro _ hfuel _ hk
    match fuel, hfuel with
    | f + 1, _ =>
      have h : polls attempts = PollOutcome.httpErr s b := by simpa using hk
      simp [onboardLoop, h]
  | k + 1, attempts, fuel, polls, s, b => by
    intro hcap hfuel hpre hk
    match fuel, hfuel with
    | f + 1, hfuel =>
      have h0 : polls attempts = PollOutcome.ok false none := by
        simpa using hpre 0 (by omega)
      have hb : ¬ (MAX_ATTEMPTS ≤ attempts + 1) := by
        simp only [MAX_ATTEMPTS]
        omega
      have step : onboardLoop polls attempts (f + 1) =
          onboardLoop polls (attempts + 1) f := by
        simp [onboardLoop, h0, hb]
      have hpre2 : ∀ i, i < k →
          polls (attempts + 1 + i) = PollOutcome.ok false none := by
        intro i hi
        rw [show attempts + 1 + i = attempts + (i + 1) from by omega]
        exact hpre (i + 1) (by omega)
      have hk2 : polls (attempts + 1 + k) = PollOutcome.httpErr s b := by
        rw [show attempts + 1 + k = attempts + (k + 1) from by omega]
        exact hk
      rw [step]
      exact onboardLoop_httpErr k (attempts + 1) f polls s b (by omega)
        (by omega) hpre2 hk2

/-- C3: the onboarding polling loop succeeds on the twelfth call when
the first eleven polls answer done:false and the twelfth answers
done:true (exactly twelve HTTP calls); with twelve consecutive
done:false polls it fails with the provisioning-timeout error even
though a thirteenth call would have answered done:true (so no
thirteenth call is made); and a poll answering a non-success HTTP
status fails the whole operation immediately with the
upstream-rejected message. -/
theorem onboard_user_polling_spec :
    onboard_user pollsElevenThenDone =
      Except.ok ({ done := true, response := none }, 12) ∧
    onboard_user pollsTwelveFalse = Except.error "onboardUser 操作超时" ∧
    (∀ (polls : Nat → PollOutcome) (k : Nat) (s b : String),
      k + 1 ≤ 12 →
      (∀ i, i < k → polls i = PollOutcome.ok false none) →
      polls k = PollOutcome.httpErr s b →
      onboard_user polls =
        Except.error ("onboardUser 失败: " ++ s ++ " - " ++ b)) := by
  refine ⟨rfl, rfl, ?_⟩
  intro polls k s b hcap hpre hk
  exact onboardLoop_httpErr k 0 MAX_ATTEMPTS polls s b (by omega)
    (by simp only [MAX_ATTEMPTS]; omega) (by simpa using hpre) (by simpa using hk)


/-- C3 witness: the upstream-rejection part applied at a concrete poll
sequence whose second call answers HTTP 500. -/
theorem onboard_user_polling_spec_witness :
    onboard_user pollsSecondRejected =
      Except.error "onboardUser 失败: 500 Internal Server Error - boom" :=
  onboard_user_polling_spec.2.2 pollsSecondRejected 1
    "500 Internal Server Error" "boom" (by omega)
    (fun i hi => by
      have : i = 0 := by omega
      subst this
      rfl)
    rfl

/- ---------------------------------------------------------------
   C6
   --------------------------------------------------------------- -/

/-- C6: get_onboard_tier is total (its Lean type is UserTier, no error
case) and follows the stated preference order — an explicit current
tier decides by its id, with a missing or unknown id degrading to
Legacy; with no current tier the first allowed tier flagged default
decides by its id; and absent or malformed tier data (no default entry,
a non-array allowed_tiers, or nothing at all) yields Legacy. -/
theorem get_onboard_tier_spec :
    (∀ (res : LoadCodeAssistResponse) (v : Json),
      res.current_tier = some v → (v.index "id").asStr = some "PRO" →
      get_onboard_tier res = UserTier.Pro) ∧
    (∀ (res : LoadCodeAssistResponse) (v : Json),
      res.current_tier = some v → (v.index "id").asStr = some "FREE" →
      get_onboard_tier res = UserTier.Free) ∧
    (∀ (res : LoadCodeAssistResponse) (v : Json) (s : String),
      res.current_tier = some v → (v.index "id").asStr = some s →
      s ≠ "PRO" → s ≠ "FREE" → get_onboard_tier res = UserTier.Legacy) ∧
    (∀ (res : LoadCodeAssistResponse) (v : Json),
      res.current_tier = some v → (v.index "id").asStr = none →
      get_onboard_tier res = UserTier.Legacy) ∧
    (∀ (res : LoadCodeAssistResponse) (pre : List Json) (t : Json)
      (post : List Json),
      res.current_tier = none →
      res.allowed_tiers = some (Json.arr (pre ++ t :: post)) →
      (∀ u ∈ pre, ((u.index "isDefault").asBool).getD false = false) →
      ((t.index "isDefault").asBool).getD false = true →
      get_onboard_tier res = tier_of_id ((t.index "id").asStr)) ∧
    (∀ (res : LoadCodeAssistResponse) (l : List Json),
      res.current_tier = none →
      res.allowed_tiers = some (Json.arr l) →
      (∀ u ∈ l, ((u.index "isDefault").asBool).getD false = false) →
      get_onboard_tier res = UserTier.Legacy) ∧
    (∀ (res : LoadCodeAssistResponse) (j : Json),
      res.current_tier = none → res.allowed_tiers = some j →
      j.asArray = none → get_onboard_tier res = UserTier.Legacy) ∧
    (∀ (res : LoadCodeAssistResponse),
      res.current_tier = none → res.allowed_tiers = none →
      get_onboard_tier res = UserTier.Legacy) := by
  refine ⟨?_, ?_, ?_, ?_, ?_, ?_, ?_, ?_⟩
  · intro res v h1 h2
    simp [get_onboard_tier, h1, h2, tier_of_id]
  · intro res v h1 h2
    simp [get_onboard_tier, h1, h2, tier_of_id]
  · intro res v s h1 h2 h3 h4
    simp [get_onboard_tier, h1, h2, tier_of_id, h3, h4]
  · intro res v h1 h2
    simp [get_onboard_tier, h1, h2, tier_of_id]
  · intro res pre t post h1 h2 hpre ht
    simp only [get_onboard_tier, h1, h2, Json.asArray]
    clear h2
    revert hpre
    induction pre with
    | nil =>
      intro _
      simp [scanDefaultTier, ht]
    | cons u us ih =>
      intro hpre
      have hu : ((u.index "isDefault").asBool).getD false = false :=
        hpre u (by simp)
      simp only [List.cons_append, scanDefaultTier, hu]
      simpa using ih (fun x hx => hpre x (by simp [hx]))
  · intro res l h1 h2 hall
    simp only [get_onboard_tier, h1, h2, Json.asArray]
    clear h2
    revert hall
    induction l with
    | nil =>
      intro _
      simp [scanDefaultTier]
    | cons u us ih =>
      intro hall
      have hu : ((u.index "isDefault").asBool).getD false = false :=
        hall u (by simp)
      simp only [scanDefaultTier, hu]
      simpa using ih (fun x hx => hall x (by simp [hx]))
  · intro res j h1 h2 h3
    simp [get_onboard_tier, h1, h2, h3]
  · intro res h1 h2
    simp [get_onboard_tier, h1, h2]

/-- C6 witness: the explicit-current-tier branch applied at a concrete
configuration naming tier PRO. -/
theorem get_onboard_tier_spec_witness :
    get_onboard_tier
      { cloud_ai_companion_project := none,
        current_tier := some (Json.obj [("id", Json.str "PRO")]),
        allowed_tiers := none } = UserTier.Pro :=
  get_onboard_tier_spec.1
    { cloud_ai_companion_project := none,
      current_tier := some (Json.obj [("id", Json.str "PRO")]),
      allowed_tiers := none }
    (Json.obj [("id", Json.str "PRO")]) rfl rfl

/- ---------------------------------------------------------------
   C7
   --------------------------------------------------------------- -/

/-- C7 counterexample: an empty input line — and likewise a line of
one U+000C form feed, whitespace Rust's trim strips — does not parse
as a JSON-RPC request (the serde collaborator rejects every line in
this environment), yet the loop emits no response at all for either:
they are skipped by the blank-line check before parsing, so "exactly
one error response with code -32700" fails on these lines. -/
theorem run_jsonrpc_server_c7_counterexample :
    sampleDispatchEnv.parseRequest "" =
      Except.error "EOF while parsing a value at line 1 column 0" ∧
    run_jsonrpc_server sampleDispatchEnv [InLine.line ""] = [] ∧
    rustTrim "\u000C" = "" ∧
    run_jsonrpc_server sampleDispatchEnv [InLine.line "\u000C"] = [] :=
  ⟨rfl, rfl, rfl, rfl⟩

/-- C7 (amended): every input line with content beyond Unicode
whitespace (the White_Space set str::trim strips) that fails to parse
produces exactly one error response with code -32700 and a null id,
after which the loop continues with the remaining input; a line that
is entirely such whitespace is skipped with no response at all; and
every parsed request whose method is not recognized yields an error
response with code -32601 echoing the request's id. -/
theorem run_jsonrpc_server_dispatch_spec :
    (∀ (env : DispatchEnv) (rest : List InLine) (l e : String),
      rustTrim l ≠ "" →
      env.parseRequest l = Except.error e →
      run_jsonrpc_server env (InLine.line l :: rest) =
        JsonRpcResponse.mkError Json.null (-32700) ("Parse error: " ++ e)
          :: run_jsonrpc_server env rest) ∧
    (∀ (env : DispatchEnv) (rest : List InLine) (l : String),
      rustTrim l = "" →
      run_jsonrpc_server env (InLine.line l :: rest) =
        run_jsonrpc_server env rest) ∧
    (∀ (env : DispatchEnv) (req : JsonRpcRequest),
      req.method ∉ recognizedMethods →
      handle_request env req =
        JsonRpcResponse.mkError req.id (-32601)
          ("Method not found: " ++ req.method)) := by
  refine ⟨?_, ?_, ?_⟩
  · intro env rest l e h1 h2
    simp [run_jsonrpc_server, h1, h2]
  · intro env rest l h
    simp [run_jsonrpc_server, h]
  · intro env req hmem
    simp only [handle_request]
    split <;> first
      | rfl
      | (next heq => exact absurd (by simp [recognizedMethods, heq]) hmem)

/-- C7 witness: the parse-error part applied at a concrete non-blank
line the sample environment's serde rejects, and the skip part applied
at a line of one U+00A0 no-break space (Unicode whitespace that Lean's
ASCII isWhitespace would miss). -/
theorem run_jsonrpc_server_dispatch_spec_witness :
    run_jsonrpc_server sampleDispatchEnv [InLine.line "x"] =
      [JsonRpcResponse.mkError Json.null (-32700)
        "Parse error: EOF while parsing a value at line 1 column 0"] ∧
    run_jsonrpc_server sampleDispatchEnv [InLine.line "\u00A0"] = [] :=
  ⟨run_jsonrpc_server_dispatch_spec.1 sampleDispatchEnv [] "x"
      "EOF while parsing a value at line 1 column 0" (by decide) rfl,
   (run_jsonrpc_server_dispatch_spec.2.1 sampleDispatchEnv [] "\u00A0"
      (by decide)).trans rfl⟩

/- ---------------------------------------------------------------
   C8
   --------------------------------------------------------------- -/


/-- Every character of the 66-character alphabet is unreserved. -/
theorem pkceChars_unreserved :
    ∀ j, j < 66 → unreservedChar (pkceChars.getD j ' ') = true := by decide

/-- C8: every PkceVerifier produced by generate_pkce has its challenge
equal to the URL-safe no-padding base64 encoding of the SHA-256 digest
of the verifier (as computed by the library collaborators it calls), a
verifier of exactly 64 characters (hence within the 43-128 bound), and
every verifier character in the unreserved set [A-Za-z0-9-._~]. -/
theorem generate_pkce_spec (randByte : Nat → Fin 256)
    (sha256 : String → List Nat) (b64UrlNoPad : List Nat → String) :
    (generate_pkce randByte sha256 b64UrlNoPad).code_challenge =
      b64UrlNoPad (sha256 (generate_pkce randByte sha256 b64UrlNoPad).code_verifier) ∧
    (generate_pkce randByte sha256 b64UrlNoPad).code_verifier.length = 64 ∧
    ∀ c ∈ (generate_pkce randByte sha256 b64UrlNoPad).code_verifier.toList,
      unreservedChar c = true := by
  refine ⟨rfl, ?_, ?_⟩
  · simp [generate_pkce, String.length]
  · intro c hc
    simp only [generate_pkce, String.toList, List.mem_map, List.mem_range] at hc
    obtain ⟨i, _, hi⟩ := hc
    rw [← hi]
    exact pkceChars_unreserved ((randByte i).val % 66) (Nat.mod_lt _ (by norm_num))


/-- C8 witness: the theorem applied at concrete collaborators; the
first verifier character of that run is a literal 'A' and is checked
against the unreserved set. -/
theorem generate_pkce_spec_witness :
    (generate_pkce randByteSample shaSample b64Sample).code_verifier.length = 64 ∧
    unreservedChar 'A' = true :=
  ⟨(generate_pkce_spec randByteSample shaSample b64Sample).2.1,
   (generate_pkce_spec randByteSample shaSample b64Sample).2.2 'A' (by decide)⟩

/- ---------------------------------------------------------------
   C10
   --------------------------------------------------------------- -/

/-- C10: a get_auth_url request whose params are absent or lack a
"state" string is not rejected with an invalid-params error: the
handler succeeds using the freshly generated UUID as state; moreover
every response it produces is a success whose payload carries the
generated code_verifier and code_challenge alongside auth_url and
state, and the dispatcher routes the get_auth_url method to this
handler. -/
theorem handle_get_auth_url_spec :
    (∀ (env : DispatchEnv) (id : Json) (params : Option Json),
      (params.bind (fun p => p.get "state")).bind Json.asStr = none →
      handle_get_auth_url env id params =
        JsonRpcResponse.success id
          (Json.obj
            [("auth_url", Json.str (generate_auth_url env.urlencode env.newUuid
                (generate_pkce env.randByte env.sha256 env.b64UrlNoPad).code_challenge)),
             ("state", Json.str env.newUuid),
             ("code_verifier",
              Json.str (generate_pkce env.randByte env.sha256 env.b64UrlNoPad).code_verifier),
             ("code_challenge",
              Json.str (generate_pkce env.randByte env.sha256 env.b64UrlNoPad).code_challenge)])) ∧
    (∀ (env : DispatchEnv) (id : Json) (params : Option Json),
      (handle_get_auth_url env id params).error = none ∧
      ∃ st, (handle_get_auth_url env id params).result =
        some (Json.obj
          [("auth_url", Json.str (generate_auth_url env.urlencode st
              (generate_pkce env.randByte env.sha256 env.b64UrlNoPad).code_challenge)),
           ("state", Json.str st),
           ("code_verifier",
            Json.str (generate_pkce env.randByte env.sha256 env.b64UrlNoPad).code_verifier),
           ("code_challenge",
            Json.str (generate_pkce env.randByte env.sha256 env.b64UrlNoPad).code_challenge)])) ∧
    (∀ (env : DispatchEnv) (req : JsonRpcRequest),
      req.method = "get_auth_url" →
      handle_request env req = handle_get_auth_url env req.id req.params) := by
  refine ⟨?_, ?_, ?_⟩
  · intro env id params h
    simp [handle_get_auth_url, h, JsonRpcResponse.success]
  · intro env id params
    cases hs : (params.bind (fun p => p.get "state")).bind Json.asStr with
    | none =>
      refine ⟨by simp [handle_get_auth_url, JsonRpcResponse.success], ?_⟩
      exact ⟨env.newUuid, by simp [handle_get_auth_url, hs, JsonRpcResponse.success]⟩
    | some st =>
      refine ⟨by simp [handle_get_auth_url, JsonRpcResponse.success], ?_⟩
      exact ⟨st, by simp [handle_get_auth_url, hs, JsonRpcResponse.success]⟩
  · intro env req h
    simp [handle_request, h]

/-- C10 witness: the missing-params part applied at the sample
environment with params absent. -/
theorem handle_get_auth_url_spec_witness :
    handle_get_auth_url sampleDispatchEnv (Json.num 1) none =
      JsonRpcResponse.success (Json.num 1)
        (Json.obj
          [("auth_url", Json.str (generate_auth_url sampleDispatchEnv.urlencode
              sampleDispatchEnv.newUuid
              (generate_pkce sampleDispatchEnv.randByte sampleDispatchEnv.sha256
                sampleDispatchEnv.b64UrlNoPad).code_challenge)),
           ("state", Json.str sampleDispatchEnv.newUuid),
           ("code_verifier",
            Json.str (generate_pkce sampleDispatchEnv.randByte
              sampleDispatchEnv.sha256 sampleDispatchEnv.b64UrlNoPad).code_verifier),
           ("code_challenge",
            Json.str (generate_pkce sampleDispatchEnv.randByte
              sampleDispatchEnv.sha256 sampleDispatchEnv.b64UrlNoPad).code_challenge)]) :=
  handle_get_auth_url_spec.1 sampleDispatchEnv (Json.num 1) none rfl
